import Mathlib

/-!
Verification of `nuitka/utils/SharedLibraries.py` (shared-library
introspection and patching subsystem).

Modelling conventions:
* Python byte strings / strings are modelled as `List Char`.
* Effectful environment facts (results of `ctypes.util.find_library`,
  `os.walk`, external tool standard output, Windows version API results)
  are explicit parameters; the functions of the module are then pure.
* Python exceptions (`AssertionError`, `ValueError`, `KeyError`,
  `NuitkaAssumptionError`) are modelled with `Except`.
* The Python 3 `bytes.decode` steps are identity in this model (the
  character content is unchanged).
-/

deriving instance DecidableEq for Except

namespace SharedLibraries

/-! ### Python string primitives -/

/-- Python whitespace for `bytes.strip` / `bytes.split()`:
space, tab, newline, carriage return, vertical tab, form feed. -/
def isPyWs (ch : Char) : Bool :=
  ch = ' ' || ch = '\t' || ch = '\n' || ch = '\r' || ch = '\x0b' || ch = '\x0c'

/-- Python `s.strip()` (strip ASCII whitespace on both ends). -/
def pyStrip (s : List Char) : List Char :=
  ((s.dropWhile isPyWs).reverse.dropWhile isPyWs).reverse

/-- Prepend a character to the first component of a split result. -/
def consHead (x : Char) : List (List Char) → List (List Char)
  | [] => [[x]]
  | y :: ys => (x :: y) :: ys

/-- Worker for Python `s.split(sep)` with non-empty separator `c :: cs`.
The structural `fuel` dominates the string length (each step consumes at
least one character), so with `fuel = s.length` the fuel never runs out. -/
def pySplitAux (c : Char) (cs : List Char) : Nat → List Char → List (List Char)
  | _, [] => [[]]
  | 0, s => [s]
  | fuel + 1, x :: xs =>
    if (c :: cs).isPrefixOf (x :: xs) then
      [] :: pySplitAux c cs fuel ((x :: xs).drop (cs.length + 1))
    else
      consHead x (pySplitAux c cs fuel xs)

/-- Python `s.split(sep)` for a non-empty separator (Python raises on an
empty separator; that case is never exercised by the source). -/
def pySplit (sep : List Char) (s : List Char) : List (List Char) :=
  match sep with
  | [] => [s]
  | c :: cs => pySplitAux c cs s.length s

/-- Python `s.count(sub)`: number of non-overlapping occurrences. -/
def countSub (sep : List Char) (s : List Char) : Nat :=
  (pySplit sep s).length - 1

/-- Worker for Python `bytes.splitlines`: terminators `\r\n`, `\r`, `\n`;
a trailing terminator does not produce a final empty line. -/
def pySplitlinesGo : List Char → List Char → List (List Char)
  | [], acc => [acc.reverse]
  | '\r' :: '\n' :: rest, acc =>
      acc.reverse :: (if rest.isEmpty then [] else pySplitlinesGo rest [])
  | '\n' :: rest, acc =>
      acc.reverse :: (if rest.isEmpty then [] else pySplitlinesGo rest [])
  | '\r' :: rest, acc =>
      acc.reverse :: (if rest.isEmpty then [] else pySplitlinesGo rest [])
  | x :: rest, acc => pySplitlinesGo rest (x :: acc)

/-- Python `bytes.splitlines`. -/
def pySplitlines (s : List Char) : List (List Char) :=
  if s.isEmpty then [] else pySplitlinesGo s []

/-- Worker for Python `s.split()` (split on whitespace runs, no empties). -/
def pySplitWsGo : List Char → List Char → List (List Char)
  | [], acc => if acc.isEmpty then [] else [acc.reverse]
  | x :: rest, acc =>
      if isPyWs x then
        if acc.isEmpty then pySplitWsGo rest []
        else acc.reverse :: pySplitWsGo rest []
      else pySplitWsGo rest (x :: acc)

/-- Python `s.split()` with no argument. -/
def pySplitWs (s : List Char) : List (List Char) :=
  pySplitWsGo s []

/-- Index of the first occurrence of `sep` in `s`, if any. -/
def findSub (sep : List Char) : List Char → Option Nat
  | [] => if sep.isPrefixOf ([] : List Char) then some 0 else none
  | x :: rest =>
      if sep.isPrefixOf (x :: rest) then some 0
      else (findSub sep rest).map (· + 1)

/-- Index of the last occurrence of `sep` in `s`, if any. -/
def rfindSub (sep : List Char) : List Char → Option Nat
  | [] => if sep.isPrefixOf ([] : List Char) then some 0 else none
  | x :: rest =>
      match rfindSub sep rest with
      | some i => some (i + 1)
      | none => if sep.isPrefixOf (x :: rest) then some 0 else none

/-- Python `sub in s` (substring containment). -/
def containsSub (sep : List Char) (s : List Char) : Bool :=
  (findSub sep s).isSome

/-- Python `s.find(sub)`: first index or `-1`. -/
def pyFind (sep : List Char) (s : List Char) : Int :=
  match findSub sep s with
  | some i => (i : Int)
  | none => -1

/-- Python `s.rfind(sub)`: last index or `-1`. -/
def pyRfind (sep : List Char) (s : List Char) : Int :=
  match rfindSub sep s with
  | some i => (i : Int)
  | none => -1

/-- Clamp one slice index to the length `n` of the sequence, with
Python's negative-index wrap-around. -/
def pySliceIdx (n a : Int) : Int :=
  if a < 0 then max (n + a) 0 else min a n

/-- Python slice `s[a:b]` with Python's negative-index semantics. -/
def pySlice (s : List Char) (a b : Int) : List Char :=
  (s.take (pySliceIdx s.length b).toNat).drop (pySliceIdx s.length a).toNat

/-- Python `sep.join(parts)`. -/
def joinWith (sep : List Char) : List (List Char) → List Char
  | [] => []
  | [x] => x
  | x :: y :: rest => x ++ sep ++ joinWith sep (y :: rest)

/-- First-match association-list lookup (Python `dict` membership /
indexing for the insertion discipline used in `locateDLL`). -/
def lookupAssoc : List (List Char × List Char) → List Char → Option (List Char)
  | [], _ => none
  | (k, v) :: rest, key => if k = key then some v else lookupAssoc rest key

/-! ### `getWindowsDLLVersion` (SharedLibraries.py lines 146-215)

The Windows version-resource API calls are environment inputs:
`size` is the result of `GetFileVersionInfoSize*`, `loadOk` the success of
`GetFileVersionInfo*` (asserted by the source), `queryOk` the success of
the root `VerQueryValueA` query, and `info` the fixed-file-info block the
query would yield. -/

/-- The `VsFixedFileInfoStructure` fields consumed by the source. -/
structure VsFixedFileInfoStructure where
  dwSignature : Nat
  dwFileVersionMS : Nat
  dwFileVersionLS : Nat
  deriving DecidableEq

def getWindowsDLLVersion (size : Nat) (loadOk : Bool) (queryOk : Bool)
    (info : VsFixedFileInfoStructure) : Except Unit (Nat × Nat × Nat × Nat) :=
  if size = 0 then .ok (0, 0, 0, 0)
  else if !loadOk then .error ()
  else if !queryOk then .ok (0, 0, 0, 0)
  else if !(info.dwSignature = 0xFEEF04BD) then .ok (0, 0, 0, 0)
  else
    .ok ((info.dwFileVersionMS >>> 16) &&& 0xFFFF, info.dwFileVersionMS &&& 0xFFFF,
         (info.dwFileVersionLS >>> 16) &&& 0xFFFF, info.dwFileVersionLS &&& 0xFFFF)

/-! ### `getPEFileInformation` (SharedLibraries.py lines 219-267) -/

/-- Modelled from the spec: the two recognized 16-bit PE optional-header
magic constants come from the bundled `pefile` library, which is not under
`src/`; the values are the standard PE32 / PE32+ magics the spec refers to
as "two recognized 16-bit constants". -/
def OPTIONAL_HEADER_MAGIC_PE : Nat := 0x10b

/-- Modelled from the spec: see `OPTIONAL_HEADER_MAGIC_PE`. -/
def OPTIONAL_HEADER_MAGIC_PE_PLUS : Nat := 0x20b

/-- Modelled from the spec: `NuitkaAssumptionError` lives in
`nuitka/Errors.py`, which is not under `src/`; it is an exception type
carrying the offending data. -/
inductive NuitkaError where
  | assumptionError (pe_type : Nat)
  deriving DecidableEq

/-- The `pe_type2arch` dict of the source as a partial map. -/
def pe_type2arch (t : Nat) : Option Bool :=
  if t = OPTIONAL_HEADER_MAGIC_PE then some false
  else if t = OPTIONAL_HEADER_MAGIC_PE_PLUS then some true
  else none

/-- The information `getPEFileInformation` extracts; the `DLLs` list is the
decoded import-directory module names delivered by `pefile`.  -/
structure PEInfo where
  DLLs : List (List Char)
  AMD64 : Bool
  deriving DecidableEq

/-- `getPEFileInformation`: `pe_type` is `pe.PE_TYPE` and `imports` the
names found in `pe.DIRECTORY_ENTRY_IMPORT` (both produced by `pefile`).
The architecture-mismatch warning of the source is logging only and does
not affect the returned value. -/
def getPEFileInformation (pe_type : Nat) (imports : List (List Char)) :
    Except NuitkaError PEInfo :=
  match pe_type2arch pe_type with
  | none => .error (.assumptionError pe_type)
  | some arch => .ok { DLLs := imports, AMD64 := arch }

/-! ### `removeSxsFromDLL` (SharedLibraries.py lines 125-143) -/

/-- Modelled from the spec: `RT_MANIFEST` is defined in
`nuitka/utils/WindowsResources.py`, which is not under `src/`; it is the
Windows manifest resource-kind constant. -/
def RT_MANIFEST : Nat := 24

/-- Windows `os.path.normcase`: replace `/` by `\` and lowercase
(`removeSxsFromDLL` only runs on Windows files). -/
def ntNormcase (p : List Char) : List Char :=
  p.map (fun ch => if ch = '/' then '\\' else ch.toLower)

/-- Windows `os.path.basename`: the part after the last path separator.
A leading drive specification `X:` is split off first (it only matters
when no separator follows it, as in `C:sip.pyd`; UNC roots contain
separators and are covered by the last-separator rule). -/
def ntBasename (p : List Char) : List Char :=
  let rest := match p with
    | _ :: ':' :: r => r
    | _ => p
  (rest.foldl (fun acc ch =>
    if ch = '/' || ch = '\\' then [] else acc ++ [ch]) [])

/-- Observable actions of `removeSxsFromDLL`: enumerating the manifest
resources of a file (via `getSxsFromDLL`, read-only) and deleting
resources (via `deleteWindowsResources`, the only file mutation). -/
inductive SxsAction where
  | getSxs (filename : List Char)
  | deleteRes (filename : List Char) (kind : Nat) (names : List (List Char))
  deriving DecidableEq

/-- `removeSxsFromDLL`, returning the trace of resource actions performed;
`res_names` is what resource enumeration on the file would yield. -/
def removeSxsFromDLL (filename : List Char) (res_names : List (List Char)) :
    List SxsAction :=
  if !(ntNormcase (ntBasename filename) ∈
        ["sip.pyd".data, "win32ui.pyd".data, "winxpgui.pyd".data]) then
    []
  else
    SxsAction.getSxs filename ::
      (if !res_names.isEmpty then
        [SxsAction.deleteRes filename RT_MANIFEST res_names]
      else [])

/-! ### `_filterInstallNameToolErrorOutput` (SharedLibraries.py lines 344-352) -/

def _filterInstallNameToolErrorOutput (stderr : List Char) : List Char :=
  joinWith "\n".data
    ((pySplitlines stderr).filter
      (fun line => !line.isEmpty &&
        !containsSub "invalidate the code signature".data line))

/-- Modelled from the spec: `executeToolChecked` (in
`nuitka/utils/Execution.py`, not under `src/`) treats stderr content
remaining after the `stderr_filter` as failure evidence. -/
def stderrIndicatesFailure (stderr : List Char) : Bool :=
  !(_filterInstallNameToolErrorOutput stderr).isEmpty

/-! ### `locateDLL` / `locateDLLFromFilesystem` (SharedLibraries.py lines 43-106) -/

/-- Python exceptions raised while parsing `ldconfig -p` output and
resolving the name: the two `assert` statements, the tuple-unpack
`ValueError` of `left, right = line.strip().split(b" => ")`, and the
`KeyError` of `dll_map[dll_name]`. -/
inductive LocErr where
  | assertionError (line : List Char)
  | valueError (line : List Char)
  | keyError
  deriving DecidableEq

/-- The per-line work of the `ldconfig -p` parsing loop
(SharedLibraries.py lines 94-101): assert exactly one `=>` occurrence in
the raw line, split the stripped line on `" => "` into `left, right`,
assert `" ("` occurs in `left`, and cut `left` at the last `" ("`.
The Python 3 decode step is identity in this model. -/
def parseLdconfigRow (line : List Char) : Except LocErr (List Char × List Char) :=
  if !(countSub "=>".data line = 1) then .error (.assertionError line)
  else
    match pySplit " => ".data (pyStrip line) with
    | [left, right] =>
        if !containsSub " (".data left then .error (.assertionError line)
        else .ok (pySlice left 0 (pyRfind " (".data left), right)
    | _ => .error (.valueError line)

/-- The `dll_map` building loop (SharedLibraries.py lines 91-104):
`if left not in dll_map: dll_map[left] = right`, modelled as an ordered
association list extended only for new keys. -/
def buildDllMap : List (List Char) → List (List Char × List Char) →
    Except LocErr (List (List Char × List Char))
  | [], m => .ok m
  | line :: rest, m =>
      match parseLdconfigRow line with
      | .error e => .error e
      | .ok (left, right) =>
          buildDllMap rest
            (if (lookupAssoc m left).isNone then m ++ [(left, right)] else m)

/-- The tail of `locateDLL` on generic Linux: split the `ldconfig -p`
output into lines, drop the header line, build the map, and index it with
the loader-resolved name (`dll_map[dll_name]`, a `KeyError` if absent). -/
def ldconfigResolve (lines : List (List Char)) (dll_name : List Char) :
    Except LocErr (List Char) :=
  match buildDllMap (lines.drop 1) [] with
  | .error e => .error e
  | .ok m =>
      match lookupAssoc m dll_name with
      | some path => .ok path
      | none => .error .keyError

/-- `locateDLLFromFilesystem`: walk each path in order and return the
first directory containing `name`; `walk` is the `os.walk` environment
(`path ↦ list of (root, files)` in walk order) and `joinPath` is
`os.path.join`. -/
def locateDLLFromFilesystem (name : List Char) (paths : List (List Char))
    (walk : List Char → List (List Char × List (List Char)))
    (joinPath : List Char → List Char → List Char) : Option (List Char) :=
  paths.findSome? fun path =>
    (walk path).findSome? fun rootFiles =>
      if name ∈ rootFiles.2 then some (joinPath rootFiles.1 name) else none

/-- Host-platform classification used by `locateDLL`
(`isWin32Windows()`, `getOS() == "Darwin"`, `isAlpineLinux()`). -/
structure Host where
  isWin32 : Bool
  isDarwin : Bool
  isAlpine : Bool

/-- `locateDLL`.  Environment inputs: `find_library` is
`ctypes.util.find_library`, `normpath` is `os.path.normpath`,
`get_soname` is `ctypes.util._get_soname`, `walk` is `os.walk`,
`dirname`/`joinPath` are `os.path.dirname`/`os.path.join`, and
`ldconfig_output` is the captured stdout of `/sbin/ldconfig -p`.
On POSIX (`os.path.sep` is `/`) the separator test is membership of `/`. -/
def locateDLL (dll_name : List Char) (host : Host)
    (find_library : List Char → Option (List Char))
    (normpath : List Char → List Char)
    (get_soname : List Char → Option (List Char))
    (walk : List Char → List (List Char × List (List Char)))
    (dirname : List Char → List Char)
    (joinPath : List Char → List Char → List Char)
    (ldconfig_output : List Char) : Except LocErr (Option (List Char)) :=
  match find_library dll_name with
  | none => .ok none
  | some dll_name =>
    if host.isWin32 then .ok (some (normpath dll_name))
    else if host.isDarwin then .ok (some dll_name)
    else if '/' ∈ dll_name then
      match get_soname dll_name with
      | some so_name => .ok (some (joinPath (dirname dll_name) so_name))
      | none => .ok (some dll_name)
    else if host.isAlpine then
      .ok (locateDLLFromFilesystem dll_name
            ["/lib".data, "/usr/lib".data, "/usr/local/lib".data] walk joinPath)
    else
      match ldconfigResolve (pySplitlines ldconfig_output) dll_name with
      | .error e => .error e
      | .ok path => .ok (some path)

/-! ### `_getSharedLibraryRPATHElf` (SharedLibraries.py lines 273-289) -/

/-- The per-line test of the `readelf -d` scan:
`b"RPATH" in line or b"RUNPATH" in line`. -/
def elfTagged (line : List Char) : Bool :=
  containsSub "RPATH".data line || containsSub "RUNPATH".data line

/-- The value extraction of the `readelf` scan:
`line[line.find(b"[") + 1 : line.rfind(b"]")]`. -/
def elfExtract (line : List Char) : List Char :=
  pySlice line (pyFind "[".data line + 1) (pyRfind "]".data line)

/-- The `for line in output.split(b"\n")` loop of
`_getSharedLibraryRPATHElf`. -/
def elfRPATHLines : List (List Char) → Option (List Char)
  | [] => none
  | line :: rest =>
      if elfTagged line then some (elfExtract line) else elfRPATHLines rest

/-- `_getSharedLibraryRPATHElf`; `output` is the captured stdout of
`readelf -d filename` (the decode step is identity in this model). -/
def _getSharedLibraryRPATHElf (output : List Char) : Option (List Char) :=
  elfRPATHLines (pySplit "\n".data output)

/-! ### `_getSharedLibraryRPATHDarwin` (SharedLibraries.py lines 297-324) -/

/-- The value extraction of the `otool -l` scan:
`line[5 : line.rfind(b"(") - 1]` (on the stripped line). -/
def darwinExtract (line : List Char) : List Char :=
  pySlice line 5 (pyRfind "(".data line - 1)

/-- The `for line in output.split(b"\n")` loop of
`_getSharedLibraryRPATHDarwin`, carrying the `cmd` and
`last_was_load_command` state.  `line.split()[1]` raises `IndexError`
(modelled as `.error ()`) when the stripped line has fewer than two
whitespace-separated tokens. -/
def darwinRPATHLines : List (List Char) → List Char → Bool →
    Except Unit (Option (List Char))
  | [], _cmd, _lastWasLoad => .ok none
  | line :: rest, cmd, lastWasLoad =>
      let l := pyStrip line
      if cmd = "LC_RPATH".data ∧ "path ".data.isPrefixOf l then
        .ok (some (darwinExtract l))
      else if lastWasLoad ∧ "cmd ".data.isPrefixOf l then
        match (pySplitWs l).get? 1 with
        | some c => darwinRPATHLines rest c ("Load command".data.isPrefixOf l)
        | none => .error ()
      else
        darwinRPATHLines rest cmd ("Load command".data.isPrefixOf l)

/-- `_getSharedLibraryRPATHDarwin`; `output` is the captured stdout of
`otool -l filename`; the scanner starts with `cmd = b""` and
`last_was_load_command = False`. -/
def _getSharedLibraryRPATHDarwin (output : List Char) :
    Except Unit (Option (List Char)) :=
  darwinRPATHLines (pySplit "\n".data output) [] false

/-! ### `getSharedLibraryRPATH` / `removeSharedLibraryRPATH`
(SharedLibraries.py lines 327-380) -/

/-- `getSharedLibraryRPATH`: dispatch on `getOS() == "Darwin"`;
`output` is the corresponding tool's captured stdout. -/
def getSharedLibraryRPATH (isDarwin : Bool) (output : List Char) :
    Except Unit (Option (List Char)) :=
  if isDarwin then _getSharedLibraryRPATHDarwin output
  else .ok (_getSharedLibraryRPATHElf output)

/-- The external tool invocations `removeSharedLibraryRPATH` can issue:
`chrpath -d filename` (ELF) or
`install_name_tool -delete_rpath rpath filename` (Mach-O). -/
inductive RPathCmd where
  | chrpath (filename : List Char)
  | installNameToolDeleteRpath (rpath : List Char) (filename : List Char)
  deriving DecidableEq

/-- `removeSharedLibraryRPATH`, returning the resulting file content and
the trace of tool invocations.  `rpathToolOutput` is the stdout the
RPATH-querying tool would produce for the file, `file` the file's bytes,
and `exec` the environment's effect of running a tool on those bytes.
The inclusion logging and the scoped writable-mode toggle of the source
do not change file bytes and are not modelled. -/
def removeSharedLibraryRPATH (isDarwin : Bool) (rpathToolOutput : List Char)
    (filename : List Char) (exec : RPathCmd → List Nat → List Nat)
    (file : List Nat) : Except Unit (List Nat × List RPathCmd) :=
  match getSharedLibraryRPATH isDarwin rpathToolOutput with
  | .error e => .error e
  | .ok none => .ok (file, [])
  | .ok (some rpath) =>
      if isDarwin then
        let c := RPathCmd.installNameToolDeleteRpath rpath filename
        .ok (exec c file, [c])
      else
        let c := RPathCmd.chrpath filename
        .ok (exec c file, [c])

/-! ### Helper lemmas -/

/-- A separator-join of a list of non-empty pieces is empty only when the
list is empty. -/
theorem joinWith_ne_nil (sep : List Char) (xs : List (List Char))
    (hne : xs ≠ []) (hall : ∀ x ∈ xs, x ≠ []) : joinWith sep xs ≠ [] := by
  match xs with
  | [] => exact absurd rfl hne
  | [x] =>
      have := hall x (by simp)
      simpa [joinWith] using this
  | x :: y :: rest =>
      have hx := hall x (by simp)
      have : joinWith sep (x :: y :: rest) = x ++ (sep ++ joinWith sep (y :: rest)) := by
        simp [joinWith]
      rw [this]
      exact List.append_ne_nil_of_left_ne_nil hx _

/-- First index of a single character that heads the suffix `c :: w`,
provided it does not occur in the prefix `a`. -/
theorem findSub_char_append (c : Char) (a w : List Char) (h : c ∉ a) :
    findSub [c] (a ++ c :: w) = some a.length := by
  induction a with
  | nil => simp [findSub, List.isPrefixOf]
  | cons x a ih =>
      have hx : ¬(c = x) := fun hcx => h (by simp [hcx])
      have ha : c ∉ a := fun hca => h (by simp [hca])
      simp [findSub, List.isPrefixOf, hx, ih ha]

/-- A single character absent from a list has no last index in it. -/
theorem rfindSub_char_not_mem (c : Char) (w : List Char) (h : c ∉ w) :
    rfindSub [c] w = none := by
  induction w with
  | nil => simp [rfindSub, List.isPrefixOf]
  | cons x w ih =>
      have hx : ¬(c = x) := fun hcx => h (by simp [hcx])
      have hw : c ∉ w := fun hcw => h (by simp [hcw])
      simp [rfindSub, List.isPrefixOf, hx, ih hw]

/-- Last index of a single character that heads the suffix `c :: w`,
provided it does not occur in the tail `w`. -/
theorem rfindSub_char_append (c : Char) (u w : List Char) (h : c ∉ w) :
    rfindSub [c] (u ++ c :: w) = some u.length := by
  induction u with
  | nil => simp [rfindSub, List.isPrefixOf, rfindSub_char_not_mem c w h]
  | cons x u ih => simp [rfindSub, ih]

/-! ### Claim theorems -/

/-- C1: `getPEFileInformation` maps the magic `OPTIONAL_HEADER_MAGIC_PE`
to the architecture flag `false`, `OPTIONAL_HEADER_MAGIC_PE_PLUS` to
`true`, and raises `NuitkaAssumptionError` for every other magic value,
never returning a guessed flag. -/
theorem claim_C1_pe_architecture (imports : List (List Char)) (t : Nat)
    (h1 : t ≠ OPTIONAL_HEADER_MAGIC_PE) (h2 : t ≠ OPTIONAL_HEADER_MAGIC_PE_PLUS) :
    getPEFileInformation OPTIONAL_HEADER_MAGIC_PE imports =
      .ok { DLLs := imports, AMD64 := false } ∧
    getPEFileInformation OPTIONAL_HEADER_MAGIC_PE_PLUS imports =
      .ok { DLLs := imports, AMD64 := true } ∧
    getPEFileInformation t imports = .error (.assumptionError t) := by
  refine ⟨rfl, rfl, ?_⟩
  simp [getPEFileInformation, pe_type2arch, h1, h2]

/-- C1 witness: concrete instance at the unrecognized magic `0x1c0`. -/
theorem claim_C1_pe_architecture_witness :
    getPEFileInformation OPTIONAL_HEADER_MAGIC_PE ["a.dll".data] =
      .ok { DLLs := ["a.dll".data], AMD64 := false } ∧
    getPEFileInformation OPTIONAL_HEADER_MAGIC_PE_PLUS ["a.dll".data] =
      .ok { DLLs := ["a.dll".data], AMD64 := true } ∧
    getPEFileInformation 0x1c0 ["a.dll".data] = .error (.assumptionError 0x1c0) :=
  claim_C1_pe_architecture ["a.dll".data] 0x1c0 (by decide) (by decide)

/-- C2: `getWindowsDLLVersion` returns `(1, 2, 3, 4)` for a fixed-file-info
block with signature `0xFEEF04BD`, MS field `0x00010002` and LS field
`0x00030004`, and returns `(0, 0, 0, 0)` without error whenever the size
query yields zero, the root query fails, or the signature differs. -/
theorem claim_C2_version_decoding (size : Nat) (hsz : size ≠ 0)
    (loadOk queryOk : Bool) (info : VsFixedFileInfoStructure)
    (sig ms ls : Nat) (hsig : sig ≠ 0xFEEF04BD) :
    getWindowsDLLVersion size true true
      { dwSignature := 0xFEEF04BD, dwFileVersionMS := 0x00010002,
        dwFileVersionLS := 0x00030004 } = .ok (1, 2, 3, 4) ∧
    getWindowsDLLVersion 0 loadOk queryOk info = .ok (0, 0, 0, 0) ∧
    getWindowsDLLVersion size true false info = .ok (0, 0, 0, 0) ∧
    getWindowsDLLVersion size true true
      { dwSignature := sig, dwFileVersionMS := ms, dwFileVersionLS := ls } =
      .ok (0, 0, 0, 0) := by
  refine ⟨?_, rfl, ?_, ?_⟩ <;> (simp [getWindowsDLLVersion, hsz, hsig]; try decide)

/-- C2 witness: concrete instance at buffer size 7 and wrong signature 1. -/
theorem claim_C2_version_decoding_witness :
    getWindowsDLLVersion 7 true true
      { dwSignature := 0xFEEF04BD, dwFileVersionMS := 0x00010002,
        dwFileVersionLS := 0x00030004 } = .ok (1, 2, 3, 4) ∧
    getWindowsDLLVersion 0 false false
      { dwSignature := 0, dwFileVersionMS := 0, dwFileVersionLS := 0 } =
      .ok (0, 0, 0, 0) ∧
    getWindowsDLLVersion 7 true false
      { dwSignature := 0, dwFileVersionMS := 0, dwFileVersionLS := 0 } =
      .ok (0, 0, 0, 0) ∧
    getWindowsDLLVersion 7 true true
      { dwSignature := 1, dwFileVersionMS := 5, dwFileVersionLS := 6 } =
      .ok (0, 0, 0, 0) :=
  claim_C2_version_decoding 7 (by decide) false false
    { dwSignature := 0, dwFileVersionMS := 0, dwFileVersionLS := 0 }
    1 5 6 (by decide)

/-- C9: `removeSxsFromDLL` performs no resource enumeration and no
deletion for filenames whose case-normalized basename is outside the
fixed allow-list; for allow-listed names it deletes exactly the
enumerated `RT_MANIFEST` resource names, and performs no deletion when
none are enumerated. -/
theorem claim_C9_sxs_allowlist :
    (∀ filename res_names,
      ntNormcase (ntBasename filename) ∉
        ["sip.pyd".data, "win32ui.pyd".data, "winxpgui.pyd".data] →
      removeSxsFromDLL filename res_names = []) ∧
    (∀ filename res_names,
      ntNormcase (ntBasename filename) ∈
        ["sip.pyd".data, "win32ui.pyd".data, "winxpgui.pyd".data] →
      res_names ≠ [] →
      removeSxsFromDLL filename res_names =
        [.getSxs filename, .deleteRes filename RT_MANIFEST res_names]) ∧
    (∀ filename,
      ntNormcase (ntBasename filename) ∈
        ["sip.pyd".data, "win32ui.pyd".data, "winxpgui.pyd".data] →
      removeSxsFromDLL filename ([] : List (List Char)) = [.getSxs filename]) := by
  refine ⟨?_, ?_, ?_⟩ <;> intro filename <;>
    simp +contextual [removeSxsFromDLL]

/-- C9 witness: a non-allow-listed file with manifests present is left
alone; an allow-listed file has exactly its manifests deleted; an
allow-listed file without manifests triggers no deletion. -/
theorem claim_C9_sxs_allowlist_witness :
    removeSxsFromDLL "C:\\d\\other.pyd".data ["m1".data] = [] ∧
    removeSxsFromDLL "C:\\d\\SIP.PYD".data ["m1".data] =
      [.getSxs "C:\\d\\SIP.PYD".data,
       .deleteRes "C:\\d\\SIP.PYD".data RT_MANIFEST ["m1".data]] ∧
    removeSxsFromDLL "win32ui.pyd".data ([] : List (List Char)) =
      [.getSxs "win32ui.pyd".data] :=
  ⟨claim_C9_sxs_allowlist.1 "C:\\d\\other.pyd".data ["m1".data] (by decide),
   claim_C9_sxs_allowlist.2.1 "C:\\d\\SIP.PYD".data ["m1".data] (by decide) (by decide),
   claim_C9_sxs_allowlist.2.2 "win32ui.pyd".data (by decide)⟩

/-- C3: when `getSharedLibraryRPATH` finds no RPATH/RUNPATH entry,
`removeSharedLibraryRPATH` invokes no external tool and leaves the file
bytes unchanged. -/
theorem claim_C3_no_rpath_noop (isDarwin : Bool) (output filename : List Char)
    (exec : RPathCmd → List Nat → List Nat) (file : List Nat)
    (h : getSharedLibraryRPATH isDarwin output = .ok none) :
    removeSharedLibraryRPATH isDarwin output filename exec file = .ok (file, []) := by
  simp [removeSharedLibraryRPATH, h]

/-- C3 witness: a binary whose `readelf -d` listing has no RPATH/RUNPATH
line is untouched (even under an environment that would rewrite the file
on any tool invocation). -/
theorem claim_C3_no_rpath_noop_witness :
    getSharedLibraryRPATH false
      " 0x01 (NEEDED)  Shared library: [libc.so.6]\n".data = .ok none ∧
    removeSharedLibraryRPATH false
      " 0x01 (NEEDED)  Shared library: [libc.so.6]\n".data
      "b.so".data (fun _ _ => [9, 9, 9]) [1, 2, 3] = .ok ([1, 2, 3], []) :=
  ⟨by decide,
   claim_C3_no_rpath_noop false
     " 0x01 (NEEDED)  Shared library: [libc.so.6]\n".data
     "b.so".data (fun _ _ => [9, 9, 9]) [1, 2, 3] (by decide)⟩

/-- C8 counterexample: the benign-warning text the code filters is
"invalidate the code signature" (no trailing `s`); a stderr consisting
solely of a line containing the claimed text "invalidates the code
signature" is NOT removed by the filter and IS treated as failure
evidence, contradicting the claim. -/
theorem claim_C8_counterexample :
    containsSub "invalidates the code signature".data
      "warning: this invalidates the code signature".data = true ∧
    _filterInstallNameToolErrorOutput
      "warning: this invalidates the code signature".data =
      "warning: this invalidates the code signature".data ∧
    stderrIndicatesFailure
      "warning: this invalidates the code signature".data = true := by
  decide

/-- C8 (amended): the install_name_tool stderr filter removes every line
containing the benign warning text "invalidate the code signature" (note:
no trailing `s` on "invalidate") and every empty line; stderr consisting
solely of such lines is not failure evidence, while a remaining line that
is non-empty and lacks that text makes the filtered stderr non-empty
(failure evidence). -/
theorem claim_C8_stderr_filter :
    (∀ stderr,
      (∀ l ∈ pySplitlines stderr,
        l = [] ∨ containsSub "invalidate the code signature".data l = true) →
      stderrIndicatesFailure stderr = false) ∧
    (∀ stderr l, l ∈ pySplitlines stderr → l ≠ [] →
      containsSub "invalidate the code signature".data l = false →
      stderrIndicatesFailure stderr = true) := by
  constructor
  · intro stderr h
    have hfil : (pySplitlines stderr).filter
        (fun line => !line.isEmpty &&
          !containsSub "invalidate the code signature".data line) = [] := by
      rw [List.filter_eq_nil_iff]
      intro l hl
      rcases h l hl with h1 | h1 <;> simp [h1]
    simp [stderrIndicatesFailure, _filterInstallNameToolErrorOutput, hfil, joinWith]
  · intro stderr l hl hne hno
    have hmem : l ∈ (pySplitlines stderr).filter
        (fun line => !line.isEmpty &&
          !containsSub "invalidate the code signature".data line) := by
      rw [List.mem_filter]
      exact ⟨hl, by simp [hne, hno]⟩
    have hfne : (pySplitlines stderr).filter
        (fun line => !line.isEmpty &&
          !containsSub "invalidate the code signature".data line) ≠ [] := by
      intro hcon
      rw [hcon] at hmem
      exact absurd hmem (List.not_mem_nil l)
    have hall : ∀ x ∈ (pySplitlines stderr).filter
        (fun line => !line.isEmpty &&
          !containsSub "invalidate the code signature".data line), x ≠ [] := by
      intro x hx
      have := (List.mem_filter.mp hx).2
      intro hxe
      simp [hxe] at this
    have := joinWith_ne_nil "\n".data _ hfne hall
    simp [stderrIndicatesFailure, _filterInstallNameToolErrorOutput]
    exact this

/-- C8 witness: a stderr of one benign-warning line plus blank lines is
not failure evidence; one containing a further line is. -/
theorem claim_C8_stderr_filter_witness :
    stderrIndicatesFailure
      "warning: will invalidate the code signature in: /x\n\n".data = false ∧
    stderrIndicatesFailure
      "warning: will invalidate the code signature in: /x\nreal error\n".data = true :=
  ⟨claim_C8_stderr_filter.1
     "warning: will invalidate the code signature in: /x\n\n".data (by decide),
   claim_C8_stderr_filter.2
     "warning: will invalidate the code signature in: /x\nreal error\n".data
     "real error".data (by decide) (by decide) (by decide)⟩

/-- C4: a library name the host loader cannot resolve — and which is
absent from the Alpine filesystem walk and from the `ldconfig` cache map —
makes `locateDLL` return absent (`none`) without error, whatever the
platform branch. -/
theorem claim_C4_absent_is_none (dll_name : List Char) (host : Host)
    (find_library : List Char → Option (List Char))
    (normpath : List Char → List Char)
    (get_soname : List Char → Option (List Char))
    (walk : List Char → List (List Char × List (List Char)))
    (dirname : List Char → List Char)
    (joinPath : List Char → List Char → List Char)
    (ldconfig_output : List Char)
    (hloader : find_library dll_name = none)
    (hwalk : ∀ p rootFiles, rootFiles ∈ walk p → dll_name ∉ rootFiles.2)
    (hcache : ∀ m, buildDllMap ((pySplitlines ldconfig_output).drop 1) [] = .ok m →
      lookupAssoc m dll_name = none) :
    locateDLL dll_name host find_library normpath get_soname walk dirname
      joinPath ldconfig_output = .ok none := by
  simp [locateDLL, hloader]

/-- C4 witness: concrete unresolvable name on an empty system, checked on
a generic-Linux host (the branch reaching the fallback sources). -/
theorem claim_C4_absent_is_none_witness :
    locateDLL "libnosuch.so".data
      { isWin32 := false, isDarwin := false, isAlpine := false }
      (fun _ => none) id (fun _ => none) (fun _ => []) id
      (fun a b => a ++ '/' :: b) "header line".data = .ok none :=
  claim_C4_absent_is_none "libnosuch.so".data
    { isWin32 := false, isDarwin := false, isAlpine := false }
    (fun _ => none) id (fun _ => none) (fun _ => []) id
    (fun a b => a ++ '/' :: b) "header line".data
    rfl
    (fun p rootFiles h => absurd h (List.not_mem_nil rootFiles))
    (fun m hm => by
      have : m = [] := by
        have := hm
        simp [pySplitlines, pySplitlinesGo, buildDllMap] at this
        exact this
      rw [this]
      rfl)

/-- C5: in `ldconfig -p` parsing, when two rows declare the same library
name with two different paths, the first row's path wins and `locateDLL`
resolves the name to it. -/
theorem claim_C5_first_row_wins (name hdr l1 l2 n p1 p2 : List Char)
    (host : Host) (normpath : List Char → List Char)
    (get_soname : List Char → Option (List Char))
    (walk : List Char → List (List Char × List (List Char)))
    (dirname : List Char → List Char)
    (joinPath : List Char → List Char → List Char)
    (ldconfig_output : List Char)
    (hwin : host.isWin32 = false) (hdar : host.isDarwin = false)
    (halp : host.isAlpine = false)
    (hsep : '/' ∉ n)
    (hlines : pySplitlines ldconfig_output = [hdr, l1, l2])
    (h1 : parseLdconfigRow l1 = .ok (n, p1))
    (h2 : parseLdconfigRow l2 = .ok (n, p2))
    (hne : p1 ≠ p2) :
    locateDLL name host (fun _ => some n) normpath get_soname walk dirname
      joinPath ldconfig_output = .ok (some p1) := by
  simp [locateDLL, hwin, hdar, halp, hsep, hlines, ldconfigResolve,
    buildDllMap, h1, h2, lookupAssoc]

/-- C5 witness: two concrete rows declaring `libx.so` with different
paths; resolution yields the first row's path `/lib/libx.so`. -/
theorem claim_C5_first_row_wins_witness :
    locateDLL "libx.so".data
      { isWin32 := false, isDarwin := false, isAlpine := false }
      (fun _ => some "libx.so".data) id (fun _ => none) (fun _ => []) id
      (fun a b => a ++ '/' :: b)
      "header\n\tlibx.so (libc6) => /lib/libx.so\n\tlibx.so (libc6,hwcap) => /usr/lib/libx.so".data =
      .ok (some "/lib/libx.so".data) :=
  claim_C5_first_row_wins "libx.so".data
    "header".data
    "\tlibx.so (libc6) => /lib/libx.so".data
    "\tlibx.so (libc6,hwcap) => /usr/lib/libx.so".data
    "libx.so".data "/lib/libx.so".data "/usr/lib/libx.so".data
    { isWin32 := false, isDarwin := false, isAlpine := false }
    id (fun _ => none) (fun _ => []) id (fun a b => a ++ '/' :: b)
    "header\n\tlibx.so (libc6) => /lib/libx.so\n\tlibx.so (libc6,hwcap) => /usr/lib/libx.so".data
    rfl rfl rfl (by decide) (by decide) (by decide) (by decide) (by decide)

/-- C10 counterexample: the count assertion is on the substring `=>`
(without surrounding spaces), not on the separator `" => "`.  The row
`"libfoo.so (x)=>y => /lib/libfoo.so"` contains exactly one `" => "`
separator and its left column contains `" ("` — per the claim it violates
neither shape — yet the code aborts it with an assertion failure (its
`=>` count is 2). -/
theorem claim_C10_counterexample :
    countSub " => ".data "libfoo.so (x)=>y => /lib/libfoo.so".data = 1 ∧
    pySplit " => ".data (pyStrip "libfoo.so (x)=>y => /lib/libfoo.so".data) =
      ["libfoo.so (x)=>y".data, "/lib/libfoo.so".data] ∧
    containsSub " (".data "libfoo.so (x)=>y".data = true ∧
    countSub "=>".data "libfoo.so (x)=>y => /lib/libfoo.so".data = 2 ∧
    parseLdconfigRow "libfoo.so (x)=>y => /lib/libfoo.so".data =
      .error (.assertionError "libfoo.so (x)=>y => /lib/libfoo.so".data) ∧
    buildDllMap ["libfoo.so (x)=>y => /lib/libfoo.so".data] [] =
      .error (.assertionError "libfoo.so (x)=>y => /lib/libfoo.so".data) := by
  decide

/-- C10 (amended): when parsing `ldconfig -p` output, `locateDLL` skips
the first line; for every remaining line it asserts that the raw line
contain exactly one occurrence of the substring `=>` (not of the spaced
separator `" => "`), then splits the stripped line on `" => "` and
asserts the left column contain `" ("`.  A line failing either assertion
aborts the whole resolution with an assertion failure; a line passing the
count assertion whose split is not a two-column one aborts with an unpack
(`ValueError`) failure — never skipped as unparseable. -/
theorem claim_C10_line_assertions :
    (∀ x y rest name,
      ldconfigResolve (x :: rest) name = ldconfigResolve (y :: rest) name) ∧
    (∀ line rest m, countSub "=>".data line ≠ 1 →
      buildDllMap (line :: rest) m = .error (.assertionError line)) ∧
    (∀ line rest m left right, countSub "=>".data line = 1 →
      pySplit " => ".data (pyStrip line) = [left, right] →
      containsSub " (".data left = false →
      buildDllMap (line :: rest) m = .error (.assertionError line)) ∧
    (∀ line rest m, countSub "=>".data line = 1 →
      (pySplit " => ".data (pyStrip line)).length ≠ 2 →
      buildDllMap (line :: rest) m = .error (.valueError line)) := by
  refine ⟨fun x y rest name => rfl, ?_, ?_, ?_⟩
  · intro line rest m h
    simp [buildDllMap, parseLdconfigRow, h]
  · intro line rest m left right hc hs hl
    simp [buildDllMap, parseLdconfigRow, hc, hs, hl]
  · intro line rest m hc hlen
    have : parseLdconfigRow line = .error (.valueError line) := by
      unfold parseLdconfigRow
      simp only [hc]
      match hp : pySplit " => ".data (pyStrip line) with
      | [] => simp
      | [a] => simp
      | [a, b] => rw [hp] at hlen; simp at hlen
      | a :: b :: d :: t => simp
    simp [buildDllMap, this]

/-- C10 witness: the header line is skipped whatever it contains; a line
with two `=>` occurrences and a line with none are rejected by the count
assertion; a line whose left column lacks `" ("` is rejected by the
second assertion; a line with one `=>` but no spaced separator aborts
with the unpack failure. -/
theorem claim_C10_line_assertions_witness :
    ldconfigResolve ["garbage!!".data, "\tlibx.so (libc6) => /lib/libx.so".data]
        "libx.so".data =
      ldconfigResolve ["other ==> stuff".data, "\tlibx.so (libc6) => /lib/libx.so".data]
        "libx.so".data ∧
    buildDllMap ["no separator here".data] [] =
      .error (.assertionError "no separator here".data) ∧
    buildDllMap ["libx.so => /a => /b".data] [] =
      .error (.assertionError "libx.so => /a => /b".data) ∧
    buildDllMap ["libx.so => /lib/libx.so".data] [] =
      .error (.assertionError "libx.so => /lib/libx.so".data) ∧
    buildDllMap ["a=>b".data] [] = .error (.valueError "a=>b".data) :=
  ⟨claim_C10_line_assertions.1 "garbage!!".data "other ==> stuff".data
     ["\tlibx.so (libc6) => /lib/libx.so".data] "libx.so".data,
   claim_C10_line_assertions.2.1 "no separator here".data [] [] (by decide),
   claim_C10_line_assertions.2.1 "libx.so => /a => /b".data [] [] (by decide),
   claim_C10_line_assertions.2.2.1 "libx.so => /lib/libx.so".data [] []
     "libx.so".data "/lib/libx.so".data (by decide) (by decide) (by decide),
   claim_C10_line_assertions.2.2.2 "a=>b".data [] [] (by decide) (by decide)⟩


/-- Slicing with a natural index within bounds clamps to the index itself. -/
theorem pySliceIdx_of_nat (n i : Nat) (hi : i ≤ n) :
    pySliceIdx (n : Int) (i : Int) = (i : Int) := by
  unfold pySliceIdx
  have h1 : ¬((i : Int) < 0) := by omega
  rw [if_neg h1]
  omega

/-- A Python slice with in-bounds natural endpoints is `take` then `drop`. -/
theorem pySlice_of_nat (s : List Char) (i j : Nat) (hi : i ≤ s.length) (hj : j ≤ s.length) :
    pySlice s (i : Int) (j : Int) = (s.take j).drop i := by
  unfold pySlice
  rw [pySliceIdx_of_nat s.length i hi, pySliceIdx_of_nat s.length j hj]
  simp

/-- The `readelf` value extraction returns exactly the bracketed substring
when the line has the shape `a ++ "[" ++ v ++ "]"` with no earlier `[`. -/
theorem elfExtract_bracketed (a v : List Char) (ha : '[' ∉ a) :
    elfExtract (a ++ '[' :: (v ++ [']'])) = v := by
  have hfind : findSub "[".data (a ++ '[' :: (v ++ [']'])) = some a.length :=
    findSub_char_append '[' a (v ++ [']']) ha
  have hrfind : rfindSub "]".data (a ++ '[' :: (v ++ [']'])) =
      some (a.length + (v.length + 1)) := by
    have hrw : a ++ '[' :: (v ++ [']']) = (a ++ '[' :: v) ++ ']' :: [] := by simp
    rw [hrw]
    have h := rfindSub_char_append ']' (a ++ '[' :: v) [] (by simp)
    rw [h]
    congr 1
    simp only [List.length_append, List.length_cons]
  unfold elfExtract pyFind pyRfind
  rw [hfind, hrfind]
  have hcast : ((a.length : Int) + 1) = ((a.length + 1 : Nat) : Int) := by push_cast; ring
  rw [hcast]
  rw [pySlice_of_nat _ (a.length + 1) (a.length + (v.length + 1))
    (by simp only [List.length_append, List.length_cons]; omega)
    (by simp only [List.length_append, List.length_cons]; omega)]
  have hrw2 : a ++ '[' :: (v ++ [']']) = (a ++ '[' :: v) ++ [']'] := by simp
  rw [hrw2]
  rw [List.take_left' (by simp [List.length_append])]
  have hrw3 : a ++ '[' :: v = (a ++ ['[']) ++ v := by simp
  rw [hrw3]
  rw [List.drop_left' (by simp [List.length_append])]


/-- A `readelf -d` listing whose lines all lack the RPATH/RUNPATH tags
yields no result. -/
theorem elfRPATHLines_none (lines : List (List Char))
    (h : ∀ l ∈ lines, elfTagged l = false) : elfRPATHLines lines = none := by
  induction lines with
  | nil => rfl
  | cons x rest ih =>
      have hx := h x (by simp)
      have hr : ∀ l ∈ rest, elfTagged l = false := fun l hl => h l (by simp [hl])
      simp [elfRPATHLines, hx, ih hr]


/-- C6: on ELF hosts the RPATH query returns the bracketed value substring
of the first `readelf -d` line containing `RPATH` or `RUNPATH`, and returns
absent when no line carries either tag. -/
theorem claim_C6_elf_rpath :
    (∀ output, (∀ l ∈ pySplit "\n".data output, elfTagged l = false) →
      _getSharedLibraryRPATHElf output = none) ∧
    (∀ pre line post, (∀ l ∈ pre, elfTagged l = false) → elfTagged line = true →
      elfRPATHLines (pre ++ line :: post) = some (elfExtract line)) ∧
    (∀ a v, '[' ∉ a → elfExtract (a ++ '[' :: (v ++ [']'])) = v) := by
  refine ⟨?_, ?_, fun a v ha => elfExtract_bracketed a v ha⟩
  · intro output h
    exact elfRPATHLines_none _ h
  · intro pre line post hpre hline
    induction pre with
    | nil => simp [elfRPATHLines, hline]
    | cons x rest ih =>
        have hx := hpre x (by simp)
        have hr : ∀ l ∈ rest, elfTagged l = false := fun l hl => hpre l (by simp [hl])
        simp [elfRPATHLines, hx, ih hr]

/-- C6 witness: concrete `readelf -d` listings — one untagged (absent),
one where the first tagged line is a RUNPATH line whose bracketed value is
extracted. -/
theorem claim_C6_elf_rpath_witness :
    _getSharedLibraryRPATHElf
      " 0x01 (NEEDED)  Shared library: [libc.so.6]\n 0x0f (FLAGS)  x\n".data = none ∧
    elfRPATHLines
      [" 0x01 (NEEDED)  Shared library: [libc.so.6]".data,
       " 0x0f (RUNPATH)  Library runpath: [/opt/lib]".data,
       " 0x0f (RPATH)  Library rpath: [/other]".data] =
      some (elfExtract " 0x0f (RUNPATH)  Library runpath: [/opt/lib]".data) ∧
    elfExtract (" 0x0f (RUNPATH)  Library runpath: ".data ++ '[' :: ("/opt/lib".data ++ [']'])) =
      "/opt/lib".data :=
  ⟨claim_C6_elf_rpath.1 _ (by decide),
   claim_C6_elf_rpath.2.1 [" 0x01 (NEEDED)  Shared library: [libc.so.6]".data]
     " 0x0f (RUNPATH)  Library runpath: [/opt/lib]".data
     [" 0x0f (RPATH)  Library rpath: [/other]".data] (by decide) (by decide),
   claim_C6_elf_rpath.2.2 " 0x0f (RUNPATH)  Library runpath: ".data "/opt/lib".data (by decide)⟩


/-- The `otool -l` scanner never returns a path while the captured command
type stays different from `LC_RPATH`: if no line captures `LC_RPATH` as its
second token, the scan ends with `none`. -/
theorem darwinRPATHLines_none (lines : List (List Char)) :
    ∀ cmd flag, cmd ≠ "LC_RPATH".data →
    (∀ l ∈ lines, "cmd ".data.isPrefixOf (pyStrip l) = true →
      ((pySplitWs (pyStrip l)).get? 1).isSome = true ∧
      (pySplitWs (pyStrip l)).get? 1 ≠ some "LC_RPATH".data) →
    darwinRPATHLines lines cmd flag = .ok none := by
  induction lines with
  | nil => intro cmd flag _ _; rfl
  | cons x rest ih =>
      intro cmd flag hcmd h
      have hx := h x (by simp)
      have hr : ∀ l ∈ rest, _ := fun l hl => h l (by simp [hl])
      unfold darwinRPATHLines
      rw [if_neg (fun hcon => hcmd hcon.1)]
      by_cases h2 : (flag = true ∧ "cmd ".data.isPrefixOf (pyStrip x) = true)
      · rw [if_pos h2]
        obtain ⟨hs, hne⟩ := hx h2.2
        obtain ⟨c, hc⟩ := Option.isSome_iff_exists.mp hs
        rw [hc]
        have hcne : c ≠ "LC_RPATH".data := fun he => hne (by rw [hc, he])
        exact ih c _ hcne hr
      · rw [if_neg h2]
        exact ih cmd _ hcmd hr

/-- Once the captured command type is `LC_RPATH`, the first subsequent
line starting with `path ` (none of the lines before it being `path ` or
`cmd ` lines) delivers the extracted value. -/
theorem darwinRPATHLines_capture (mid : List (List Char)) :
    ∀ (p : List Char) (rest : List (List Char)) (flag : Bool),
    (∀ l ∈ mid, "path ".data.isPrefixOf (pyStrip l) = false ∧
      "cmd ".data.isPrefixOf (pyStrip l) = false) →
    "path ".data.isPrefixOf (pyStrip p) = true →
    darwinRPATHLines (mid ++ p :: rest) "LC_RPATH".data flag =
      .ok (some (darwinExtract (pyStrip p))) := by
  induction mid with
  | nil =>
      intro p rest flag _ hp
      rw [List.nil_append]
      unfold darwinRPATHLines
      rw [if_pos ⟨rfl, hp⟩]
  | cons x mid ih =>
      intro p rest flag hmid hp
      have hx := hmid x (by simp)
      have hm : ∀ l ∈ mid, _ := fun l hl => hmid l (by simp [hl])
      rw [List.cons_append]
      unfold darwinRPATHLines
      rw [if_neg (fun hcon => by
        have := hcon.2
        rw [hx.1] at this
        exact absurd this (by simp))]
      rw [if_neg (fun hcon => by
        have := hcon.2
        rw [hx.2] at this
        exact absurd this (by simp))]
      exact ih p rest _ hm hp

/-- The `otool` value extraction strips the `path ` head and the trailing
parenthesized offset note from a line `path <v> (<ann>`. -/
theorem darwinExtract_path (v ann : List Char) (h : '(' ∉ ann) :
    darwinExtract ("path ".data ++ v ++ ' ' :: '(' :: ann) = v := by
  have hrfind : rfindSub "(".data ("path ".data ++ v ++ ' ' :: '(' :: ann) =
      some (v.length + 6) := by
    have hrw : "path ".data ++ v ++ ' ' :: '(' :: ann =
        (("path ".data ++ v) ++ [' ']) ++ '(' :: ann := by simp
    rw [hrw]
    have hh := rfindSub_char_append '(' (("path ".data ++ v) ++ [' ']) ann h
    rw [hh]
    congr 1
    have h5 : ("path ".data).length = 5 := rfl
    simp [List.length_append, h5]
  unfold darwinExtract pyRfind
  rw [hrfind]
  have hcast : ((v.length + 6 : Nat) : Int) - 1 = ((v.length + 5 : Nat) : Int) := by
    push_cast
    ring
  rw [hcast]
  have h5i : (5 : Int) = ((5 : Nat) : Int) := rfl
  rw [h5i]
  have hlen : ("path ".data ++ v ++ ' ' :: '(' :: ann).length = v.length + ann.length + 7 := by
    have h5 : ("path ".data).length = 5 := rfl
    simp [List.length_append, h5]
    omega
  rw [pySlice_of_nat _ 5 (v.length + 5) (by omega) (by omega)]
  have hrw2 : "path ".data ++ v ++ ' ' :: '(' :: ann =
      ("path ".data ++ v) ++ ' ' :: '(' :: ann := by simp
  rw [hrw2]
  rw [List.take_left' (by
    have h5 : ("path ".data).length = 5 := rfl
    simp [List.length_append, h5])]
  rw [List.drop_left' (by rfl)]


/-- C7: on Mach-O hosts the scanner tracks a load-command-header flag and a
captured command type; with no `LC_RPATH` capture the result is absent, and
once the captured type is `LC_RPATH` the first following `path ` line gives
the result, stripped of the `path ` head and of the trailing parenthesized
offset note. -/
theorem claim_C7_darwin_scanner :
    (∀ output,
      (∀ l ∈ pySplit "\n".data output,
        "cmd ".data.isPrefixOf (pyStrip l) = true →
        ((pySplitWs (pyStrip l)).get? 1).isSome = true ∧
        (pySplitWs (pyStrip l)).get? 1 ≠ some "LC_RPATH".data) →
      _getSharedLibraryRPATHDarwin output = .ok none) ∧
    (∀ mid p rest flag,
      (∀ l ∈ mid, "path ".data.isPrefixOf (pyStrip l) = false ∧
        "cmd ".data.isPrefixOf (pyStrip l) = false) →
      "path ".data.isPrefixOf (pyStrip p) = true →
      darwinRPATHLines (mid ++ p :: rest) "LC_RPATH".data flag =
        .ok (some (darwinExtract (pyStrip p)))) ∧
    (∀ v ann, '(' ∉ ann →
      darwinExtract ("path ".data ++ v ++ ' ' :: '(' :: ann) = v) := by
  refine ⟨?_, ?_, fun v ann h => darwinExtract_path v ann h⟩
  · intro output h
    exact darwinRPATHLines_none _ [] false (by decide) h
  · intro mid p rest flag hmid hp
    exact darwinRPATHLines_capture mid p rest flag hmid hp

/-- C7 witness: a concrete `otool -l` dump without `LC_RPATH` yields
absent; a concrete `LC_RPATH` block yields its `path ` value. -/
theorem claim_C7_darwin_scanner_witness :
    _getSharedLibraryRPATHDarwin
      "Load command 0\n          cmd LC_SEGMENT_64\n      cmdsize 72\n".data =
      .ok none ∧
    darwinRPATHLines
      (["      cmdsize 40".data] ++
        "         path /usr/local/lib (offset 12)".data :: ["".data])
      "LC_RPATH".data false =
      .ok (some (darwinExtract (pyStrip "         path /usr/local/lib (offset 12)".data))) ∧
    darwinExtract ("path ".data ++ "/usr/local/lib".data ++ ' ' :: '(' :: "offset 12)".data) =
      "/usr/local/lib".data :=
  ⟨claim_C7_darwin_scanner.1
     "Load command 0\n          cmd LC_SEGMENT_64\n      cmdsize 72\n".data (by decide),
   claim_C7_darwin_scanner.2.1 ["      cmdsize 40".data]
     "         path /usr/local/lib (offset 12)".data ["".data] false
     (by decide) (by decide),
   claim_C7_darwin_scanner.2.2 "/usr/local/lib".data "offset 12)".data (by decide)⟩

end SharedLibraries
